import Mathlib

/-
Verification of the layered-configuration / server-identity bootstrap
subsystem (src/server/src/infra/configuration.rs of lldap).

The Rust code is shallowly embedded:
  - the file system and the OS entropy source become an explicit World value
    threaded through the functions;
  - Rust panics (assert, unwrap) and recoverable Result errors become a
    tagged RustError type, so that the two failure modes stay distinguishable;
  - console output becomes an explicit list of Msg values;
  - the cryptographic primitives (SHA-256 from the sha2 crate, the ChaCha20
    deterministic generator, and ServerSetup of the lldap_auth crate, which
    is code of this repository that is not under src/) are abstracted into a
    CryptoModel record of pure functions; every theorem about key material
    quantifies over all such models, so the proved properties hold for any
    implementation of the primitives.
-/

namespace LldapConfig

/-- Raw bytes, as natural numbers below 256 in the intended reading. -/
abbrev Bytes := List Nat

/-- UTF-8 bytes of a string, as used when hashing the key seed. -/
def strBytes (s : String) : Bytes :=
  s.toUTF8.data.toList.map (fun b => b.toNat)

/-- Modelled from the spec: the opaque PAKE server setup of the lldap_auth
crate (repository code not under src/). Only its identity and its keypair
accessor matter to this subsystem, so it is a record of opaque byte fields. -/
structure ServerSetupV where
  keypairBytes : Bytes
  privateState : Bytes
deriving DecidableEq

/-- Modelled from the spec: the cryptographic primitives used by key-material
resolution, abstracted as pure functions. sha256 stands for the fixed
cryptographic hash (sha2 crate); setupFromDigest stands for
ServerSetup.new applied to a ChaCha20 generator seeded from a digest;
setupFromEntropy stands for ServerSetup.new applied to the OS randomness
source, indexed by the entropy the world supplies; serialize and deserialize
stand for the binary codec of the lldap_auth crate. -/
structure CryptoModel where
  sha256 : Bytes → Bytes
  setupFromDigest : Bytes → ServerSetupV
  setupFromEntropy : Nat → ServerSetupV
  serialize : ServerSetupV → Bytes
  deserialize : Bytes → Option ServerSetupV

/-- The world state threaded through the embedded code: the file system as an
association list from path to file content, where an entry with value none is
a file that exists but cannot be read; the set of paths at which the
create/permission/write sequence of the OS fails; and the entropy that the OS
randomness source would deliver to this resolution. -/
structure World where
  fs : List (String × Option Bytes)
  createFails : List String
  entropy : Nat
deriving DecidableEq

/-- Path.exists of the Rust standard library. -/
def pathExists (w : World) (p : String) : Bool :=
  (List.lookup p w.fs).isSome

/-- Replace or insert the content stored at a path. -/
def setFs (fs : List (String × Option Bytes)) (p : String) (v : Option Bytes) :
    List (String × Option Bytes) :=
  (p, v) :: fs.filter (fun kv => kv.1 != p)

/-- Failure modes of the embedded code. Panics (assert, unwrap) are kept
distinct from recoverable errors, mirroring Rust. -/
inductive RustError where
  | panicAssertPathExists
  | panicUnwrap
  | ioCreateFailed (path : String)
  | couldNotReadKeyFile (path : String)
  | couldNotWriteKeyFile (path : String)
  | deserializeFailed
  | sourceParse (msg : String)
deriving DecidableEq

/-- Console output lines relevant to the specified behaviour. -/
inductive Msg where
  | loadingConfigFrom (path : String)
  | verboseConfigDump
  | seedIgnoresExistingKeyFile
  | seedIgnoresKeyFileName
  | defaultJwtSecret
  | defaultAdminPassword
  | tlsRequiredDeprecated
deriving DecidableEq

/-- File.create of the Rust standard library: creates the file, or truncates
it if it already exists; it only fails when the OS refuses the operation.
It is not a create-exclusive primitive. -/
def fileCreate (w : World) (p : String) : Except RustError World :=
  if w.createFails.contains p then .error (.ioCreateFailed p)
  else .ok { w with fs := setFs w.fs p (some []) }

/-- write_all on the open handle: stores the buffer as the file content. -/
def writeAll (w : World) (p : String) (b : Bytes) : World :=
  { w with fs := setFs w.fs p (some b) }

/-- write_to_readonly_file of configuration.rs: asserts that no file exists at
the path (a panic if one does), then creates the file with File.create,
restricts its permissions, and writes the buffer. The permission calls are
modelled as part of the create step (their failures are folded into
World.createFails). -/
def write_to_readonly_file (w : World) (path : String) (buffer : Bytes) :
    Except RustError World :=
  if pathExists w path then .error .panicAssertPathExists
  else
    match fileCreate w path with
    | .error e => .error e
    | .ok w1 => .ok (writeAll w1 path buffer)

/-- generate_random_private_key of configuration.rs: ServerSetup.new on the
OS randomness source, which the world supplies as its entropy field. -/
def generate_random_private_key (cm : CryptoModel) (entropy : Nat) : ServerSetupV :=
  cm.setupFromEntropy entropy

/-- The anyhow context wrap applied to the result of write_to_readonly_file
inside get_server_setup: a recoverable error gets the could-not-write context;
a panic is not a Result value and propagates unchanged. -/
def contextWrite (path : String) : RustError → RustError
  | .panicAssertPathExists => .panicAssertPathExists
  | _ => .couldNotWriteKeyFile path

/-- get_server_setup of configuration.rs. Returns the resolved setup, the
world after resolution, and the console lines printed. The three branches
mirror the source: non-empty seed (hash the seed bytes, seed the
deterministic generator, generate); otherwise existing file (read and
deserialize); otherwise generate fresh and persist via
write_to_readonly_file. -/
def get_server_setup (cm : CryptoModel) (w : World) (file_path : String)
    (key_seed : String) : Except RustError (ServerSetupV × World × List Msg) :=
  if key_seed != "" then
    let msgs :=
      if file_path != "server_key" || pathExists w file_path then
        [Msg.seedIgnoresExistingKeyFile]
      else [Msg.seedIgnoresKeyFileName]
    .ok (cm.setupFromDigest (cm.sha256 (strBytes key_seed)), w, msgs)
  else if pathExists w file_path then
    match List.lookup file_path w.fs with
    | none => .error (.couldNotReadKeyFile file_path)
    | some none => .error (.couldNotReadKeyFile file_path)
    | some (some bytes) =>
      match cm.deserialize bytes with
      | none => .error .deserializeFailed
      | some s => .ok (s, w, [])
  else
    let server_setup := generate_random_private_key cm w.entropy
    match write_to_readonly_file w file_path (cm.serialize server_setup) with
    | .error e => .error (contextWrite file_path e)
    | .ok w1 => .ok (server_setup, w1, [])

/-- Modelled from the spec: the SMTP encryption enum of the CLI crate
(declared in cli.rs, repository code not under src/): None, StartTls, Tls. -/
inductive SmtpEncryption where
  | noEncryption
  | startTls
  | tls
deriving DecidableEq

/-- MailOptions of configuration.rs. SecUtf8 and Mailbox values are modelled
by their underlying strings. -/
structure MailOptions where
  enable_password_reset : Bool
  «from» : Option String
  reply_to : Option String
  server : String
  port : Nat
  user : String
  password : String
  smtp_encryption : SmtpEncryption
  tls_required : Option Bool
deriving DecidableEq

/-- The builder defaults of MailOptions. -/
def MailOptions.default : MailOptions :=
  { enable_password_reset := false
    «from» := none
    reply_to := none
    server := ("localhost")
    port := 587
    user := ("")
    password := ("")
    smtp_encryption := .tls
    tls_required := none }

/-- LdapsOptions of configuration.rs. -/
structure LdapsOptions where
  enabled : Bool
  port : Nat
  cert_file : String
  key_file : String
deriving DecidableEq

/-- The builder defaults of LdapsOptions. -/
def LdapsOptions.default : LdapsOptions :=
  { enabled := false
    port := 6360
    cert_file := ("cert.pem")
    key_file := ("key.pem") }

/-- Configuration of configuration.rs. UserId, Url and SecUtf8 values are
modelled by their underlying strings. -/
structure Configuration where
  ldap_host : String
  ldap_port : Nat
  http_host : String
  http_port : Nat
  jwt_secret : String
  ldap_base_dn : String
  ldap_user_dn : String
  ldap_user_email : String
  ldap_user_pass : String
  database_url : String
  ignored_user_attributes : List String
  ignored_group_attributes : List String
  verbose : Bool
  key_file : String
  key_seed : Option String
  smtp_options : MailOptions
  ldaps_options : LdapsOptions
  http_url : String
  server_setup : Option ServerSetupV
deriving DecidableEq

/-- ConfigurationBuilder generated by derive_builder: every field is an
Option, none meaning use the default. -/
structure ConfigurationBuilder where
  ldap_host : Option String := none
  ldap_port : Option Nat := none
  http_host : Option String := none
  http_port : Option Nat := none
  jwt_secret : Option String := none
  ldap_base_dn : Option String := none
  ldap_user_dn : Option String := none
  ldap_user_email : Option String := none
  ldap_user_pass : Option String := none
  database_url : Option String := none
  ignored_user_attributes : Option (List String) := none
  ignored_group_attributes : Option (List String) := none
  verbose : Option Bool := none
  key_file : Option String := none
  key_seed : Option (Option String) := none
  smtp_options : Option MailOptions := none
  ldaps_options : Option LdapsOptions := none
  http_url : Option String := none
  server_setup : Option (Option ServerSetupV) := none

/-- private_build of the derive_builder output: fills every unset field with
its declared default. It cannot fail because every field has a default. -/
def ConfigurationBuilder.private_build (b : ConfigurationBuilder) : Configuration :=
  { ldap_host := b.ldap_host.getD ("0.0.0.0")
    ldap_port := b.ldap_port.getD 3890
    http_host := b.http_host.getD ("0.0.0.0")
    http_port := b.http_port.getD 17170
    jwt_secret := b.jwt_secret.getD ("secretjwtsecret")
    ldap_base_dn := b.ldap_base_dn.getD ("dc=example,dc=com")
    ldap_user_dn := b.ldap_user_dn.getD ("admin")
    ldap_user_email := b.ldap_user_email.getD ("")
    ldap_user_pass := b.ldap_user_pass.getD ("password")
    database_url := b.database_url.getD ("sqlite://users.db?mode=rwc")
    ignored_user_attributes := b.ignored_user_attributes.getD []
    ignored_group_attributes := b.ignored_group_attributes.getD []
    verbose := b.verbose.getD false
    key_file := b.key_file.getD ("server_key")
    key_seed := b.key_seed.getD none
    smtp_options := b.smtp_options.getD MailOptions.default
    ldaps_options := b.ldaps_options.getD LdapsOptions.default
    http_url := b.http_url.getD ("http://localhost")
    server_setup := b.server_setup.getD none }

/-- ConfigurationBuilder.build of configuration.rs: resolve the key material
from the builder key_file (default server_key) and the flattened key_seed
(empty string when absent), then finish the build with server_setup set. -/
def ConfigurationBuilder.build (cm : CryptoModel) (w : World)
    (b : ConfigurationBuilder) :
    Except RustError (Configuration × World × List Msg) :=
  match get_server_setup cm w (b.key_file.getD ("server_key"))
      ((b.key_seed.bind id).getD ("")) with
  | .error e => .error e
  | .ok (s, w1, msgs) =>
    .ok (({ b with server_setup := some (some s) }).private_build, w1, msgs)

/-- Default for Configuration in configuration.rs: build the default builder
and unwrap, so a resolution failure becomes a panic. -/
def Configuration.default (cm : CryptoModel) (w : World) :
    Except RustError (Configuration × World × List Msg) :=
  match ConfigurationBuilder.build cm w {} with
  | .ok x => .ok x
  | .error _ => .error .panicUnwrap

/-- Configuration::get_server_setup of configuration.rs: unwrap of the
server_setup field; unwrapping none is a panic. -/
def Configuration.get_server_setup (c : Configuration) :
    Except RustError ServerSetupV :=
  match c.server_setup with
  | some s => .ok s
  | none => .error .panicUnwrap

/-- Configuration::get_server_keys of configuration.rs: the keypair of the
unwrapped server setup. -/
def Configuration.get_server_keys (c : Configuration) :
    Except RustError Bytes :=
  (c.get_server_setup).map (fun s => s.keypairBytes)

/-- Modelled from the spec: GeneralConfigOpts of cli.rs (repository code not
under src/): the verbose flag (a plain bool, not an Option) and the
configuration file path. -/
structure GeneralConfigOpts where
  verbose : Bool
  config_file : String
deriving DecidableEq

/-- Modelled from the spec: SmtpOpts of cli.rs (repository code not under
src/), every field optional; field set drawn from its use in
configuration.rs. -/
structure SmtpOpts where
  smtp_from : Option String
  smtp_reply_to : Option String
  smtp_server : Option String
  smtp_port : Option Nat
  smtp_user : Option String
  smtp_password : Option String
  smtp_encryption : Option SmtpEncryption
  smtp_tls_required : Option Bool
  smtp_enable_password_reset : Option Bool
deriving DecidableEq

/-- Modelled from the spec: LdapsOpts of cli.rs (repository code not under
src/), every field optional. -/
structure LdapsOpts where
  ldaps_enabled : Option Bool
  ldaps_port : Option Nat
  ldaps_cert_file : Option String
  ldaps_key_file : Option String
deriving DecidableEq

/-- Modelled from the spec: RunOpts of cli.rs (repository code not under
src/); field set drawn from its use in configuration.rs. -/
structure RunOpts where
  general_config : GeneralConfigOpts
  server_key_file : Option String
  server_key_seed : Option String
  ldap_port : Option Nat
  http_port : Option Nat
  http_url : Option String
  database_url : Option String
  smtp_opts : SmtpOpts
  ldaps_opts : LdapsOpts
deriving DecidableEq

/-- Modelled from the spec: TestEmailOpts of cli.rs (repository code not
under src/). -/
structure TestEmailOpts where
  general_config : GeneralConfigOpts
  smtp_opts : SmtpOpts
deriving DecidableEq

/-- ConfigOverrider for GeneralConfigOpts: the verbose flag, when set on the
command line, forces verbose to true; otherwise the configuration is left
alone. -/
def GeneralConfigOpts.override_config (o : GeneralConfigOpts)
    (config : Configuration) : Configuration :=
  if o.verbose then { config with verbose := true } else config

/-- ConfigOverrider for LdapsOpts: each present optional field overwrites the
corresponding ldaps_options field. -/
def LdapsOpts.override_config (o : LdapsOpts) (config : Configuration) :
    Configuration :=
  let config :=
    match o.ldaps_enabled with
    | some enabled =>
      { config with ldaps_options := { config.ldaps_options with enabled := enabled } }
    | none => config
  let config :=
    match o.ldaps_port with
    | some port =>
      { config with ldaps_options := { config.ldaps_options with port := port } }
    | none => config
  let config :=
    match o.ldaps_cert_file with
    | some path =>
      { config with ldaps_options := { config.ldaps_options with cert_file := path } }
    | none => config
  match o.ldaps_key_file with
  | some path =>
    { config with ldaps_options := { config.ldaps_options with key_file := path } }
  | none => config

/-- ConfigOverrider for SmtpOpts: each present optional field overwrites the
corresponding smtp_options field. -/
def SmtpOpts.override_config (o : SmtpOpts) (config : Configuration) :
    Configuration :=
  let config :=
    match o.smtp_from with
    | some v => { config with smtp_options := { config.smtp_options with «from» := some v } }
    | none => config
  let config :=
    match o.smtp_reply_to with
    | some v => { config with smtp_options := { config.smtp_options with reply_to := some v } }
    | none => config
  let config :=
    match o.smtp_server with
    | some v => { config with smtp_options := { config.smtp_options with server := v } }
    | none => config
  let config :=
    match o.smtp_port with
    | some v => { config with smtp_options := { config.smtp_options with port := v } }
    | none => config
  let config :=
    match o.smtp_user with
    | some v => { config with smtp_options := { config.smtp_options with user := v } }
    | none => config
  let config :=
    match o.smtp_password with
    | some v => { config with smtp_options := { config.smtp_options with password := v } }
    | none => config
  let config :=
    match o.smtp_encryption with
    | some v => { config with smtp_options := { config.smtp_options with smtp_encryption := v } }
    | none => config
  let config :=
    match o.smtp_tls_required with
    | some v => { config with smtp_options := { config.smtp_options with tls_required := some v } }
    | none => config
  match o.smtp_enable_password_reset with
  | some v =>
    { config with smtp_options := { config.smtp_options with enable_password_reset := v } }
  | none => config

/-- ConfigOverrider for RunOpts: apply the general options, then the six
run-specific optional fields, then the SMTP and LDAPS option groups. -/
def RunOpts.override_config (o : RunOpts) (config : Configuration) :
    Configuration :=
  let config := o.general_config.override_config config
  let config :=
    match o.server_key_file with
    | some path => { config with key_file := path }
    | none => config
  let config :=
    match o.server_key_seed with
    | some seed => { config with key_seed := some seed }
    | none => config
  let config :=
    match o.ldap_port with
    | some port => { config with ldap_port := port }
    | none => config
  let config :=
    match o.http_port with
    | some port => { config with http_port := port }
    | none => config
  let config :=
    match o.http_url with
    | some url => { config with http_url := url }
    | none => config
  let config :=
    match o.database_url with
    | some database_url => { config with database_url := database_url }
    | none => config
  let config := o.smtp_opts.override_config config
  o.ldaps_opts.override_config config

/-- ConfigOverrider for TestEmailOpts: general options then SMTP options. -/
def TestEmailOpts.override_config (o : TestEmailOpts) (config : Configuration) :
    Configuration :=
  o.smtp_opts.override_config (o.general_config.override_config config)

/-- init of configuration.rs, generic over the command options; the trait
dictionary is passed explicitly as the config_file value and the apply
function (the override_config method of the options). The figment merge of
defaults, TOML file and environment (external crates) is represented by its
outcome, the extracted argument; an extraction failure is a SourceParse
error. After the overrides, init resolves the key material, stores it in the
configuration, and prints the three advisory diagnostics. The second
component collects every console line in print order. -/
def init (cm : CryptoModel) (w : World) (config_file : String)
    (apply : Configuration → Configuration)
    (extracted : Except String Configuration) :
    Except RustError (Configuration × World) × List Msg :=
  let msgs0 := [Msg.loadingConfigFrom config_file]
  match extracted with
  | .error e => (.error (.sourceParse e), msgs0)
  | .ok config0 =>
    let config := apply config0
    let msgs1 := msgs0 ++ (if config.verbose then [Msg.verboseConfigDump] else [])
    match get_server_setup cm w config.key_file (config.key_seed.getD ("")) with
    | .error e => (.error e, msgs1)
    | .ok (s, w1, kmsgs) =>
      let config1 := { config with server_setup := some s }
      let warns :=
        (if config1.jwt_secret == "secretjwtsecret" then [Msg.defaultJwtSecret] else []) ++
          (if config1.ldap_user_pass == "password" then [Msg.defaultAdminPassword] else []) ++
            (if (config1.smtp_options.tls_required).isSome then [Msg.tlsRequiredDeprecated] else [])
      (.ok (config1, w1), msgs1 ++ kmsgs ++ warns)

/-- A concrete crypto model used by the witnesses; the claim theorems hold
for every CryptoModel, this one just makes them computable on examples. Its
deserializer rejects the empty byte string, so corrupt-file scenarios are
expressible. -/
def sampleCrypto : CryptoModel :=
  { sha256 := fun b => 0 :: b
    setupFromDigest := fun d => ⟨d, [1]⟩
    setupFromEntropy := fun n => ⟨[n], [2]⟩
    serialize := fun s => s.keypairBytes ++ s.privateState
    deserialize := fun b => if b = [] then none else some ⟨b, []⟩ }

/-- The override contract of SmtpOpts stated declaratively, following the
spec words: each present optional field overwrites the corresponding field,
each absent field leaves it untouched. Compared against
SmtpOpts.override_config below. -/
def SmtpOpts.apply (o : SmtpOpts) (m : MailOptions) : MailOptions :=
  { enable_password_reset := o.smtp_enable_password_reset.getD m.enable_password_reset
    «from» := Option.or o.smtp_from m.«from»
    reply_to := Option.or o.smtp_reply_to m.reply_to
    server := o.smtp_server.getD m.server
    port := o.smtp_port.getD m.port
    user := o.smtp_user.getD m.user
    password := o.smtp_password.getD m.password
    smtp_encryption := o.smtp_encryption.getD m.smtp_encryption
    tls_required := Option.or o.smtp_tls_required m.tls_required }

/-- The override contract of LdapsOpts stated declaratively, following the
spec words. Compared against LdapsOpts.override_config below. -/
def LdapsOpts.apply (o : LdapsOpts) (l : LdapsOptions) : LdapsOptions :=
  { enabled := o.ldaps_enabled.getD l.enabled
    port := o.ldaps_port.getD l.port
    cert_file := o.ldaps_cert_file.getD l.cert_file
    key_file := o.ldaps_key_file.getD l.key_file }

/-! Theorems. -/

/-- Helper: the general-options override only forces verbose on. -/
lemma general_override_spec (o : GeneralConfigOpts) (c : Configuration) :
    o.override_config c = { c with verbose := c.verbose || o.verbose } := by
  unfold GeneralConfigOpts.override_config
  cases h : o.verbose <;> simp [h]

/-- Helper: the SMTP override equals its declarative field-wise contract. -/
lemma smtp_override_spec (o : SmtpOpts) (c : Configuration) :
    o.override_config c = { c with smtp_options := o.apply c.smtp_options } := by
  obtain ⟨f1, f2, f3, f4, f5, f6, f7, f8, f9⟩ := o
  cases f1 <;> cases f2 <;> cases f3 <;> cases f4 <;> cases f5 <;> cases f6 <;>
    cases f7 <;> cases f8 <;> cases f9 <;> rfl

/-- Helper: the LDAPS override equals its declarative field-wise contract. -/
lemma ldaps_override_spec (o : LdapsOpts) (c : Configuration) :
    o.override_config c = { c with ldaps_options := o.apply c.ldaps_options } := by
  obtain ⟨f1, f2, f3, f4⟩ := o
  cases f1 <;> cases f2 <;> cases f3 <;> cases f4 <;> rfl

/-- Helper: the RunOpts override pass as one simultaneous record update. -/
lemma run_override_spec (o : RunOpts) (c : Configuration) :
    o.override_config c = { c with
      verbose := c.verbose || o.general_config.verbose
      key_file := o.server_key_file.getD c.key_file
      key_seed := Option.or o.server_key_seed c.key_seed
      ldap_port := o.ldap_port.getD c.ldap_port
      http_port := o.http_port.getD c.http_port
      http_url := o.http_url.getD c.http_url
      database_url := o.database_url.getD c.database_url
      smtp_options := o.smtp_opts.apply c.smtp_options
      ldaps_options := o.ldaps_opts.apply c.ldaps_options } := by
  obtain ⟨gc, f1, f2, f3, f4, f5, f6, so, lo⟩ := o
  simp only [RunOpts.override_config, general_override_spec, smtp_override_spec,
    ldaps_override_spec]
  cases f1 <;> cases f2 <;> cases f3 <;> cases f4 <;> cases f5 <;> cases f6 <;> rfl

/-- Helper: every console line produced by a successful get_server_setup is
one of the two seed-precedence notices. -/
lemma get_server_setup_msgs (cm : CryptoModel) (w : World) (p s : String)
    (r : ServerSetupV × World × List Msg)
    (h : get_server_setup cm w p s = .ok r) :
    ∀ m ∈ r.2.2, m = Msg.seedIgnoresExistingKeyFile ∨ m = Msg.seedIgnoresKeyFileName := by
  intro m hm
  unfold get_server_setup at h
  split at h
  · injection h with h2
    subst h2
    simp only at hm
    split at hm <;> simp at hm <;> simp [hm]
  · split at h
    · split at h
      · simp at h
      · simp at h
      · split at h
        · simp at h
        · injection h with h2
          subst h2
          simp at hm
    · dsimp only at h
      split at h
      · simp at h
      · injection h with h2
        subst h2
        simp at hm

/-- Claim C1: for every crypto model and every non-empty seed string, the
result of get_server_setup depends only on the seed: across any two worlds
and any two key-file paths the serialized key material is byte-identical,
the resolved setup is exactly the one generated from the deterministic
generator seeded with the SHA-256 digest of the seed bytes, and in
particular the run with seed "key seed" against the nonexistent path
"/doesnt/exist" always yields the one fixed serialized byte vector
determined by the primitives (the vector attested by the repository test). -/
theorem seed_determinism (cm : CryptoModel) (w1 w2 : World) (p1 p2 s : String)
    (hs : s ≠ ("")) :
    (get_server_setup cm w1 p1 s).map (fun r => cm.serialize r.1)
        = (get_server_setup cm w2 p2 s).map (fun r => cm.serialize r.1)
      ∧ (get_server_setup cm w1 p1 s).map (fun r => r.1)
        = .ok (cm.setupFromDigest (cm.sha256 (strBytes s)))
      ∧ (get_server_setup cm w1 ("/doesnt/exist") ("key seed")).map
          (fun r => cm.serialize r.1)
        = .ok (cm.serialize (cm.setupFromDigest (cm.sha256 (strBytes ("key seed"))))) := by
  refine ⟨?_, ?_, ?_⟩ <;>
    simp [get_server_setup, bne_iff_ne, hs, Except.map]

/-- Witness for C1 at seed "key seed", two different worlds and paths. -/
theorem seed_determinism_witness :
    ("key seed" : String) ≠ ("")
      ∧ (get_server_setup sampleCrypto ⟨[], [], 3⟩ ("/doesnt/exist") ("key seed")).map
          (fun r => sampleCrypto.serialize r.1)
        = (get_server_setup sampleCrypto ⟨[(("server_key"), some [7])], [], 9⟩
            ("server_key") ("key seed")).map (fun r => sampleCrypto.serialize r.1) :=
  ⟨by decide,
    (seed_determinism sampleCrypto ⟨[], [], 3⟩ ⟨[(("server_key"), some [7])], [], 9⟩
      ("/doesnt/exist") ("server_key") ("key seed") (by decide)).1⟩

/-- Counterexample to claim C2 as stated: the filesystem-creation primitive
that write_to_readonly_file uses (File.create) is not a create-exclusive,
fail-if-exists primitive. On a world where the file at path p already holds
bytes 1,2,3 the primitive succeeds and truncates the file; the loud failure
of write_to_readonly_file on the same input is a panic raised by the
separate, sequential existence assertion, not an error from an atomic
fail-if-exists write. -/
theorem fileCreate_truncates_cex :
    fileCreate ⟨[(("p"), some [1, 2, 3])], [], 0⟩ ("p")
        = .ok ⟨[(("p"), some [])], [], 0⟩
      ∧ write_to_readonly_file ⟨[(("p"), some [1, 2, 3])], [], 0⟩ ("p") [9]
        = .error .panicAssertPathExists := by
  constructor <;> rfl

/-- Claim C2 (amended): when no seed is given and a file exists at the
key-file path, resolution takes the file-read policy and never writes (any
successful resolution returns the world unchanged and a setup deserialized
from the existing file bytes); and write_to_readonly_file invoked on a path
where a file already exists fails loudly, by panicking on its pre-write
existence assertion, without modifying the file. The failure comes from the
sequential check, not from a create-exclusive primitive. -/
theorem write_no_overwrite (cm : CryptoModel) (w : World) (p : String) (b : Bytes)
    (hp : pathExists w p = true) :
    write_to_readonly_file w p b = .error .panicAssertPathExists
      ∧ (∀ r, get_server_setup cm w p ("") = .ok r →
          r.2.1 = w ∧ ∃ bytes, List.lookup p w.fs = some (some bytes)
            ∧ cm.deserialize bytes = some r.1) := by
  constructor
  · simp [write_to_readonly_file, hp]
  · intro r h
    unfold get_server_setup at h
    simp only [bne_self_eq_false, Bool.false_eq_true, if_false, hp, if_true] at h
    split at h
    · simp at h
    · simp at h
    · rename_i bytes hlook
      split at h
      · simp at h
      · rename_i setup hd
        injection h with h2
        subst h2
        exact ⟨rfl, bytes, hlook, hd⟩

/-- Witness for the amended C2 on a world whose file at path k holds
bytes 4,5. -/
theorem write_no_overwrite_witness :
    write_to_readonly_file ⟨[(("k"), some [4, 5])], [], 0⟩ ("k") [9]
        = .error .panicAssertPathExists
      ∧ (∀ r, get_server_setup sampleCrypto ⟨[(("k"), some [4, 5])], [], 0⟩ ("k") ("")
          = .ok r →
          r.2.1 = ⟨[(("k"), some [4, 5])], [], 0⟩
            ∧ ∃ bytes, List.lookup ("k") (⟨[(("k"), some [4, 5])], [], 0⟩ : World).fs
                = some (some bytes) ∧ sampleCrypto.deserialize bytes = some r.1) :=
  write_no_overwrite sampleCrypto ⟨[(("k"), some [4, 5])], [], 0⟩ ("k") [9] (by decide)

/-- Claim C3: with a non-empty seed and an existing key file, get_server_setup
resolves to the seed-derived setup, returns the world completely unchanged
(so the file bytes after resolution equal the bytes before), and warns that
the file is ignored. -/
theorem seed_leaves_file_untouched (cm : CryptoModel) (w : World) (p s : String)
    (hs : s ≠ ("")) (hp : pathExists w p = true) :
    get_server_setup cm w p s
      = .ok (cm.setupFromDigest (cm.sha256 (strBytes s)), w,
          [Msg.seedIgnoresExistingKeyFile]) := by
  simp [get_server_setup, bne_iff_ne, hs, hp]

/-- Witness for C3: seed x against a world with a readable key file. -/
theorem seed_leaves_file_untouched_witness :
    get_server_setup sampleCrypto ⟨[(("server_key"), some [5])], [], 0⟩
        ("server_key") ("x")
      = .ok (sampleCrypto.setupFromDigest (sampleCrypto.sha256 (strBytes ("x"))),
          ⟨[(("server_key"), some [5])], [], 0⟩, [Msg.seedIgnoresExistingKeyFile]) :=
  seed_leaves_file_untouched sampleCrypto ⟨[(("server_key"), some [5])], [], 0⟩
    ("server_key") ("x") (by decide) (by decide)

/-- Claim C6: get_server_setup executes exactly one of the three policies, in
priority order: the seed-derived policy exactly when the seed string is
non-empty; otherwise the file-read policy exactly when the path exists
(readable, unreadable and corrupt subcases spelled out); otherwise
fresh-generate-and-persist (success and write-failure subcases spelled out);
and an absent seed and a Some empty-string seed both reach get_server_setup
as the empty string, so they behave identically. -/
theorem key_policy_trichotomy (cm : CryptoModel) (w : World) (p s : String) :
    (s ≠ ("") → get_server_setup cm w p s
        = .ok (cm.setupFromDigest (cm.sha256 (strBytes s)), w,
            if p != "server_key" || pathExists w p then [Msg.seedIgnoresExistingKeyFile]
            else [Msg.seedIgnoresKeyFileName]))
      ∧ (∀ bytes setup, s = ("") → List.lookup p w.fs = some (some bytes) →
          cm.deserialize bytes = some setup →
          get_server_setup cm w p s = .ok (setup, w, []))
      ∧ (∀ bytes, s = ("") → List.lookup p w.fs = some (some bytes) →
          cm.deserialize bytes = none →
          get_server_setup cm w p s = .error .deserializeFailed)
      ∧ (s = ("") → List.lookup p w.fs = some none →
          get_server_setup cm w p s = .error (.couldNotReadKeyFile p))
      ∧ (s = ("") → List.lookup p w.fs = none →
          p ∉ w.createFails →
          get_server_setup cm w p s
            = .ok (cm.setupFromEntropy w.entropy,
                { w with fs := (setFs (setFs w.fs p (some []))
                    p (some (cm.serialize (cm.setupFromEntropy w.entropy)))) }, []))
      ∧ (s = ("") → List.lookup p w.fs = none →
          p ∈ w.createFails →
          get_server_setup cm w p s = .error (.couldNotWriteKeyFile p))
      ∧ (∀ ks : Option String, ks = some ("") ∨ ks = none →
          get_server_setup cm w p (ks.getD ("")) = get_server_setup cm w p ("")) := by
  refine ⟨?_, ?_, ?_, ?_, ?_, ?_, ?_⟩
  · intro hs
    simp [get_server_setup, bne_iff_ne, hs]
  · intro bytes setup hs hlook hd
    subst hs
    simp [get_server_setup, pathExists, hlook, hd]
  · intro bytes hs hlook hd
    subst hs
    simp [get_server_setup, pathExists, hlook, hd]
  · intro hs hlook
    subst hs
    simp [get_server_setup, pathExists, hlook]
  · intro hs hlook hcf
    subst hs
    simp [get_server_setup, pathExists, hlook, write_to_readonly_file, fileCreate,
      writeAll, hcf, generate_random_private_key]
  · intro hs hlook hcf
    subst hs
    simp [get_server_setup, pathExists, hlook, write_to_readonly_file, fileCreate,
      writeAll, hcf, generate_random_private_key, contextWrite]
  · rintro ks (rfl | rfl) <;> rfl

/-- Witness for C6: on an empty file system the generate-and-persist policy
runs and the serialized fresh setup is written at the path. -/
theorem key_policy_trichotomy_witness :
    get_server_setup sampleCrypto ⟨[], [], 4⟩ ("pp") ("")
      = .ok (sampleCrypto.setupFromEntropy 4,
          { (⟨[], [], 4⟩ : World) with fs := (setFs (setFs [] ("pp") (some []))
              ("pp") (some (sampleCrypto.serialize (sampleCrypto.setupFromEntropy 4)))) },
          []) :=
  (key_policy_trichotomy sampleCrypto ⟨[], [], 4⟩ ("pp") ("")).2.2.2.2.1 rfl rfl
    (by decide)

/-- Claim C10: the Default construction of Configuration resolves key
material on the default path server_key, so it is side-effecting (it writes
the key file when none exists) and partial (a corrupt or unreadable file, or
a failed write, makes it panic through unwrap instead of returning a value
without key material). -/
theorem default_config_effects (cm : CryptoModel) (w : World) :
    (∀ bytes setup, List.lookup ("server_key") w.fs = some (some bytes) →
        cm.deserialize bytes = some setup →
        Configuration.default cm w
          = .ok (({ ({} : ConfigurationBuilder) with
              server_setup := some (some setup) }).private_build, w, []))
      ∧ (∀ bytes, List.lookup ("server_key") w.fs = some (some bytes) →
          cm.deserialize bytes = none →
          Configuration.default cm w = .error .panicUnwrap)
      ∧ (List.lookup ("server_key") w.fs = some none →
          Configuration.default cm w = .error .panicUnwrap)
      ∧ (List.lookup ("server_key") w.fs = none →
          ("server_key" : String) ∉ w.createFails →
          Configuration.default cm w
            = .ok (({ ({} : ConfigurationBuilder) with
                server_setup := some (some (cm.setupFromEntropy w.entropy)) }).private_build,
                { w with fs := (setFs (setFs w.fs ("server_key") (some []))
                    ("server_key")
                    (some (cm.serialize (cm.setupFromEntropy w.entropy)))) }, []))
      ∧ (List.lookup ("server_key") w.fs = none →
          ("server_key" : String) ∈ w.createFails →
          Configuration.default cm w = .error .panicUnwrap) := by
  refine ⟨?_, ?_, ?_, ?_, ?_⟩
  · intro bytes setup hlook hd
    simp [Configuration.default, ConfigurationBuilder.build, get_server_setup,
      pathExists, hlook, hd]
  · intro bytes hlook hd
    simp [Configuration.default, ConfigurationBuilder.build, get_server_setup,
      pathExists, hlook, hd]
  · intro hlook
    simp [Configuration.default, ConfigurationBuilder.build, get_server_setup,
      pathExists, hlook]
  · intro hlook hcf
    simp [Configuration.default, ConfigurationBuilder.build, get_server_setup,
      pathExists, hlook, hcf, write_to_readonly_file, fileCreate, writeAll,
      generate_random_private_key]
  · intro hlook hcf
    simp [Configuration.default, ConfigurationBuilder.build, get_server_setup,
      pathExists, hlook, hcf, write_to_readonly_file, fileCreate, writeAll,
      generate_random_private_key, contextWrite]

/-- Witness for C10: on an empty file system the default construction
succeeds and persists the fresh key material at server_key. -/
theorem default_config_effects_witness :
    Configuration.default sampleCrypto ⟨[], [], 7⟩
      = .ok (({ ({} : ConfigurationBuilder) with
          server_setup := some (some (sampleCrypto.setupFromEntropy 7)) }).private_build,
          { (⟨[], [], 7⟩ : World) with fs := (setFs (setFs [] ("server_key") (some []))
              ("server_key")
              (some (sampleCrypto.serialize (sampleCrypto.setupFromEntropy 7)))) }, []) :=
  (default_config_effects sampleCrypto ⟨[], [], 7⟩).2.2.2.1 rfl (by decide)

/-- Claim C4: every Configuration produced by the public constructors
(ConfigurationBuilder.build or init) carries a resolved server setup, so its
get_server_setup and get_server_keys accessors return it without panicking;
the private default build, the only intermediate construction, is the one
place where server_setup is none. -/
theorem constructors_resolve_server_setup :
    (∀ (cm : CryptoModel) (w : World) (b : ConfigurationBuilder) cfg w1 msgs,
        ConfigurationBuilder.build cm w b = .ok (cfg, w1, msgs) →
        cfg.server_setup.isSome = true
          ∧ ∃ s, cfg.get_server_setup = .ok s
              ∧ cfg.get_server_keys = .ok s.keypairBytes)
      ∧ (∀ (cm : CryptoModel) (w : World) (cf : String)
          (ap : Configuration → Configuration) (ex : Except String Configuration)
          cfg w1, (init cm w cf ap ex).1 = .ok (cfg, w1) →
          cfg.server_setup.isSome = true
            ∧ ∃ s, cfg.get_server_setup = .ok s
                ∧ cfg.get_server_keys = .ok s.keypairBytes)
      ∧ ({} : ConfigurationBuilder).private_build.server_setup = none := by
  refine ⟨?_, ?_, rfl⟩
  · intro cm w b cfg w1 msgs h
    unfold ConfigurationBuilder.build at h
    split at h
    · simp at h
    · rename_i s wr msgsr heq
      injection h with h2
      simp only [Prod.mk.injEq] at h2
      obtain ⟨rfl, rfl, rfl⟩ := h2
      exact ⟨rfl, s, rfl, rfl⟩
  · intro cm w cf ap ex cfg w1 h
    unfold init at h
    split at h
    · simp at h
    · rename_i cfg0
      dsimp only at h
      split at h
      · simp at h
      · rename_i s w2 kmsgs heq
        dsimp only at h
        injection h with h2
        simp only [Prod.mk.injEq] at h2
        obtain ⟨rfl, rfl⟩ := h2
        exact ⟨rfl, s, rfl, rfl⟩

/-- Witness for C4: the configuration built on an empty file system carries
its resolved server setup and both accessors succeed. -/
theorem constructors_resolve_server_setup_witness :
    (({ ({} : ConfigurationBuilder) with
          server_setup := some (some (sampleCrypto.setupFromEntropy 5)) }).private_build).server_setup.isSome
        = true
      ∧ ∃ s, (({ ({} : ConfigurationBuilder) with
            server_setup := some (some (sampleCrypto.setupFromEntropy 5)) }).private_build).get_server_setup
          = .ok s
        ∧ (({ ({} : ConfigurationBuilder) with
            server_setup := some (some (sampleCrypto.setupFromEntropy 5)) }).private_build).get_server_keys
          = .ok s.keypairBytes :=
  constructors_resolve_server_setup.1 sampleCrypto ⟨[], [], 5⟩ {}
    (({ ({} : ConfigurationBuilder) with
      server_setup := some (some (sampleCrypto.setupFromEntropy 5)) }).private_build)
    ⟨(setFs (setFs [] ("server_key") (some []))
      ("server_key") (some (sampleCrypto.serialize (sampleCrypto.setupFromEntropy 5)))),
      [], 5⟩
    [] (by rfl)

/-- Claim C8: when key-material resolution fails, or the source extraction
fails, init returns the error and no Configuration at all; and whenever init
does return a configuration, that configuration is exactly the overridden
extraction with the successfully resolved server setup stored in it. -/
theorem init_no_partial_config_on_failure (cm : CryptoModel) (w : World)
    (cf : String) (ap : Configuration → Configuration)
    (ex : Except String Configuration) :
    (∀ e, ex = .error e → (init cm w cf ap ex).1 = .error (.sourceParse e))
      ∧ (∀ cfg0 e, ex = .ok cfg0 →
          get_server_setup cm w (ap cfg0).key_file (((ap cfg0).key_seed).getD (""))
            = .error e →
          (init cm w cf ap ex).1 = .error e)
      ∧ (∀ cfg w1, (init cm w cf ap ex).1 = .ok (cfg, w1) →
          ∃ cfg0 s w2 kmsgs, ex = .ok cfg0
            ∧ get_server_setup cm w (ap cfg0).key_file
                (((ap cfg0).key_seed).getD ("")) = .ok (s, w2, kmsgs)
            ∧ cfg = { ap cfg0 with server_setup := some s } ∧ w1 = w2) := by
  refine ⟨?_, ?_, ?_⟩
  · rintro e rfl
    simp [init]
  · rintro cfg0 e rfl hg
    simp [init, hg]
  · intro cfg w1 h
    unfold init at h
    split at h
    · simp at h
    · rename_i cfg0
      dsimp only at h
      split at h
      · simp at h
      · rename_i s w2 kmsgs heq
        dsimp only at h
        injection h with h2
        simp only [Prod.mk.injEq] at h2
        obtain ⟨rfl, rfl⟩ := h2
        exact ⟨cfg0, s, w2, kmsgs, rfl, heq, rfl, rfl⟩

/-- Witness for C8: a key file that exists but holds undeserializable bytes
makes init return the deserialization error and no configuration. -/
theorem init_no_partial_config_on_failure_witness :
    (init sampleCrypto ⟨[(("server_key"), some [])], [], 0⟩ ("cfg") id
        (.ok (({} : ConfigurationBuilder).private_build))).1
      = .error .deserializeFailed :=
  (init_no_partial_config_on_failure sampleCrypto ⟨[(("server_key"), some [])], [], 0⟩
    ("cfg") id (.ok (({} : ConfigurationBuilder).private_build))).2.1
    (({} : ConfigurationBuilder).private_build) .deserializeFailed rfl (by rfl)

/-- Claim C5: after a successful resolution, init returns exactly the
overridden configuration with the resolved setup; it prints the JWT warning
iff the jwt secret equals the default, the admin-password warning iff the
admin password equals the default, and the deprecation notice iff
tls_required is Some, regardless of the boolean; the diagnostics never alter
the returned Ok value. -/
theorem init_warnings_iff (cm : CryptoModel) (w : World) (cf : String)
    (ap : Configuration → Configuration) (ex : Except String Configuration) :
    ∀ cfg0 s w2 kmsgs, ex = .ok cfg0 →
      get_server_setup cm w (ap cfg0).key_file (((ap cfg0).key_seed).getD (""))
        = .ok (s, w2, kmsgs) →
      (init cm w cf ap ex).1 = .ok ({ ap cfg0 with server_setup := some s }, w2)
        ∧ (Msg.defaultJwtSecret ∈ (init cm w cf ap ex).2
            ↔ (ap cfg0).jwt_secret = ("secretjwtsecret"))
        ∧ (Msg.defaultAdminPassword ∈ (init cm w cf ap ex).2
            ↔ (ap cfg0).ldap_user_pass = ("password"))
        ∧ (Msg.tlsRequiredDeprecated ∈ (init cm w cf ap ex).2
            ↔ ((ap cfg0).smtp_options.tls_required).isSome = true) := by
  rintro cfg0 s w2 kmsgs rfl hg
  have hmsgs := get_server_setup_msgs cm w (ap cfg0).key_file
    (((ap cfg0).key_seed).getD ("")) (s, w2, kmsgs) hg
  have hA : Msg.defaultJwtSecret ∉ kmsgs := by
    intro hmem
    rcases hmsgs _ hmem with h | h <;> simp at h
  have hB : Msg.defaultAdminPassword ∉ kmsgs := by
    intro hmem
    rcases hmsgs _ hmem with h | h <;> simp at h
  have hC : Msg.tlsRequiredDeprecated ∉ kmsgs := by
    intro hmem
    rcases hmsgs _ hmem with h | h <;> simp at h
  refine ⟨by simp [init, hg], ?_, ?_, ?_⟩ <;>
    by_cases hv : (ap cfg0).verbose <;>
    by_cases h1 : (ap cfg0).jwt_secret = ("secretjwtsecret") <;>
    by_cases h2 : (ap cfg0).ldap_user_pass = ("password") <;>
    by_cases h3 : ((ap cfg0).smtp_options.tls_required).isSome = true <;>
      simp [init, hg, hv, h1, h2, h3, hA, hB, hC, beq_iff_eq]

/-- Witness for C5: with the all-defaults configuration (default JWT secret)
the JWT warning is printed. -/
theorem init_warnings_iff_witness :
    Msg.defaultJwtSecret ∈
        (init sampleCrypto ⟨[], [], 2⟩ ("cfg") id
          (.ok (({} : ConfigurationBuilder).private_build))).2
      ↔ (id (({} : ConfigurationBuilder).private_build)).jwt_secret
        = ("secretjwtsecret") :=
  (init_warnings_iff sampleCrypto ⟨[], [], 2⟩ ("cfg") id
    (.ok (({} : ConfigurationBuilder).private_build))
    (({} : ConfigurationBuilder).private_build)
    (sampleCrypto.setupFromEntropy 2)
    ⟨(setFs (setFs [] ("server_key") (some []))
      ("server_key") (some (sampleCrypto.serialize (sampleCrypto.setupFromEntropy 2)))),
      [], 2⟩
    [] rfl (by rfl)).2.1

/-- Claim C7: the CLI override pass sets exactly those Configuration fields
whose optional CLI field is present, to exactly the supplied value (for the
general verbose flag, presence is the flag being true), and leaves every
other field unchanged; with every optional field absent the configuration is
returned unchanged. Stated for RunOpts as one simultaneous record update,
with the SmtpOpts and LdapsOpts group contracts and the all-absent case. -/
theorem override_exact (o : RunOpts) (c : Configuration) :
    o.override_config c = { c with
        verbose := c.verbose || o.general_config.verbose
        key_file := o.server_key_file.getD c.key_file
        key_seed := Option.or o.server_key_seed c.key_seed
        ldap_port := o.ldap_port.getD c.ldap_port
        http_port := o.http_port.getD c.http_port
        http_url := o.http_url.getD c.http_url
        database_url := o.database_url.getD c.database_url
        smtp_options := o.smtp_opts.apply c.smtp_options
        ldaps_options := o.ldaps_opts.apply c.ldaps_options }
      ∧ (∀ (so : SmtpOpts) (c2 : Configuration),
          so.override_config c2 = { c2 with smtp_options := so.apply c2.smtp_options })
      ∧ (∀ (lo : LdapsOpts) (c2 : Configuration),
          lo.override_config c2 = { c2 with ldaps_options := lo.apply c2.ldaps_options })
      ∧ (o.general_config.verbose = false → o.server_key_file = none →
          o.server_key_seed = none → o.ldap_port = none → o.http_port = none →
          o.http_url = none → o.database_url = none →
          o.smtp_opts = ⟨none, none, none, none, none, none, none, none, none⟩ →
          o.ldaps_opts = ⟨none, none, none, none⟩ →
          o.override_config c = c) := by
  refine ⟨run_override_spec o c, smtp_override_spec, ldaps_override_spec, ?_⟩
  obtain ⟨⟨gv, gcf⟩, f1, f2, f3, f4, f5, f6, so, lo⟩ := o
  intro hv h1 h2 h3 h4 h5 h6 hs hl
  dsimp only at hv h1 h2 h3 h4 h5 h6 hs hl
  subst hv h1 h2 h3 h4 h5 h6 hs hl
  rfl

/-- Witness for C7: the all-absent override pass leaves the default-built
configuration unchanged. -/
theorem override_exact_witness :
    RunOpts.override_config
        ⟨⟨false, ("cfg.toml")⟩, none, none, none, none, none, none,
          ⟨none, none, none, none, none, none, none, none, none⟩,
          ⟨none, none, none, none⟩⟩
        (({ ({} : ConfigurationBuilder) with
          server_setup := some (some (sampleCrypto.setupFromEntropy 1)) }).private_build)
      = ({ ({} : ConfigurationBuilder) with
          server_setup := some (some (sampleCrypto.setupFromEntropy 1)) }).private_build :=
  (override_exact
      ⟨⟨false, ("cfg.toml")⟩, none, none, none, none, none, none,
        ⟨none, none, none, none, none, none, none, none, none⟩,
        ⟨none, none, none, none⟩⟩
      (({ ({} : ConfigurationBuilder) with
        server_setup := some (some (sampleCrypto.setupFromEntropy 1)) }).private_build)).2.2.2
    rfl rfl rfl rfl rfl rfl rfl rfl rfl

/-- Claim C9: the verbose CLI override is monotone: the result is the
disjunction of the merged value and the flag, so a true flag forces verbose
on, a false flag leaves the whole configuration untouched, and a verbose
value already set by earlier layers can never be disabled by the CLI pass. -/
theorem verbose_override_monotone (o : GeneralConfigOpts) (c : Configuration) :
    (o.override_config c).verbose = (c.verbose || o.verbose)
      ∧ (o.verbose = true → (o.override_config c).verbose = true)
      ∧ (o.verbose = false → o.override_config c = c)
      ∧ (c.verbose = true → (o.override_config c).verbose = true) := by
  refine ⟨?_, ?_, ?_, ?_⟩
  · rw [general_override_spec]
  · intro h
    rw [general_override_spec]
    simp [h]
  · intro h
    obtain ⟨ov, ocf⟩ := o
    dsimp only at h
    subst h
    rfl
  · intro h
    rw [general_override_spec]
    simp [h]

/-- Witness for C9: a false verbose flag leaves the configuration unchanged. -/
theorem verbose_override_monotone_witness :
    GeneralConfigOpts.override_config ⟨false, ("c.toml")⟩
        (({ ({} : ConfigurationBuilder) with
          server_setup := some (some (sampleCrypto.setupFromEntropy 1)) }).private_build)
      = ({ ({} : ConfigurationBuilder) with
          server_setup := some (some (sampleCrypto.setupFromEntropy 1)) }).private_build :=
  (verbose_override_monotone ⟨false, ("c.toml")⟩
    (({ ({} : ConfigurationBuilder) with
      server_setup := some (some (sampleCrypto.setupFromEntropy 1)) }).private_build)).2.2.1
    rfl

end LldapConfig
